import Mathlib

/-!
Verification of the CombinedPDF repository (`src/app.py`), a Tkinter
application that merges two PDF files, previews the result, and exports it.

The shallow embedding below models the state the claims talk about:

* `AppState` holds the path attributes set in `PDFMergerApp.__init__`
  (`pdf1_path`, `pdf2_path`, `merged_pdf_path`) and the `preview_zoom`
  factor.  Widget trees, rendered images and the status log are pure
  presentation and are not part of any claim's observable state.
* The file system is a map `String → Option (List Page)` giving, for each
  path, the parsed page list of the document stored there (`none` means the
  file is missing or fails to parse, i.e. `PdfReader`/`open` would raise).
  `Page` is an abstract type parameter: the merge never inspects a page,
  it only moves pages between documents (`writer.add_page(page)`).
* `PDFMergerApp._merge` becomes `appMerge`, `PDFMergerApp._change_zoom`
  becomes `change_zoom`, the zoom clamp of `PDFMergerApp._render_preview`
  becomes `renderClampZoom`, and `PDFMergerApp._save_as` becomes `save_as`.
  Fresh temporary paths produced by `tempfile.mkdtemp` are passed in as a
  parameter, with freshness (`fs freshPath = none`) as a hypothesis where a
  claim relies on it.
-/

universe u

/-- The parsed content of a file system: for each path, `some pages` when the
file exists and parses as a PDF with that page list, `none` when the file is
missing or `PdfReader` would raise while parsing it. -/
def FS (Page : Type u) : Type u := String → Option (List Page)

/-- The application state fields assigned in `PDFMergerApp.__init__`
(`src/app.py` lines 22-29) that the claims mention: the two selected source
paths, the path of the last merged document, and the preview zoom factor.
Python floats are modelled as rationals; the zoom arithmetic in the source
only adds tenths and clamps, which is exact. -/
structure AppState (Page : Type u) where
  pdf1_path : Option String
  pdf2_path : Option String
  merged_pdf_path : Option String
  preview_zoom : ℚ
deriving Repr, DecidableEq

/-- Python truthiness of an `Optional[str]` attribute: `None` and the empty
string are falsy (`if not self.pdf1_path` in `src/app.py` line 243). -/
def truthy : Option String → Bool
  | none => false
  | some s => !(s == "")

/-- The merge loop of `PDFMergerApp._merge` (`src/app.py` lines 249-252):

    for src in (self.pdf2_path, self.pdf1_path):
        reader = PdfReader(src)
        for page in reader.pages:
            writer.add_page(page)

Reads each source in list order and appends all of its pages to the writer's
page list.  If `PdfReader(src)` raises (the path is missing or unparseable,
`fs src = none`) the whole loop aborts, which the `Option` monad models. -/
def mergePages {Page : Type u} (fs : FS Page) : List String → Option (List Page)
  | [] => some []
  | src :: rest => do
      let pages ← fs src
      let restPages ← mergePages fs rest
      pure (pages ++ restPages)

/-- Observable outcome of one `PDFMergerApp._merge` invocation. -/
inductive MergeStep (Page : Type u) where
  /-- The `messagebox.showwarning("Missing Files", ...)` early return
  (`src/app.py` lines 243-245). -/
  | warnedMissing : MergeStep Page
  /-- The success path: the merged document, with the given page sequence,
  was written to the fresh temporary path and `merged_pdf_path` updated
  (`src/app.py` lines 254-261). -/
  | success (outPages : List Page) : MergeStep Page
  /-- The `except Exception` handler: the error is logged and shown in a
  `messagebox.showerror` dialog (`src/app.py` lines 262-264). -/
  | failed : MergeStep Page
deriving Repr, DecidableEq

/-- `PDFMergerApp._merge` (`src/app.py` lines 242-264).

* Lines 243-245: if either selected path is falsy, warn and return.
* Lines 246-252: read `(pdf2_path, pdf1_path)` in that order, appending all
  pages of each into the writer; a parse failure raises before any output
  file is created (the temporary directory is only made afterwards, line
  254), so the exception handler leaves both the state and the file system
  untouched.
* Lines 254-259: write the merged pages to `merged.pdf` inside a fresh
  `tempfile.mkdtemp` directory (`freshPath` here), then update
  `merged_pdf_path`.

The subsequent `_log` and `_render_preview` calls only touch the status
widget and the preview pane, which are outside the modelled state. -/
def appMerge {Page : Type u} (fs : FS Page) (s : AppState Page)
    (freshPath : String) : AppState Page × FS Page × MergeStep Page :=
  if truthy s.pdf1_path && truthy s.pdf2_path then
    match s.pdf1_path, s.pdf2_path with
    | some p1, some p2 =>
      match mergePages fs [p2, p1] with
      | some pages =>
          ({ s with merged_pdf_path := some freshPath },
           fun p => if p = freshPath then some pages else fs p,
           MergeStep.success pages)
      | none => (s, fs, MergeStep.failed)
    | _, _ => (s, fs, MergeStep.warnedMissing)
  else
    (s, fs, MergeStep.warnedMissing)

/-- `PDFMergerApp._change_zoom` (`src/app.py` line 357): the new zoom value
`max(0.5, min(2.0, self.preview_zoom + delta))`. -/
def change_zoom (zoom delta : ℚ) : ℚ :=
  max (1/2) (min 2 (zoom + delta))

/-- The effective zoom factor used by `PDFMergerApp._render_preview`
(`src/app.py` line 298): `max(0.5, min(2.0, self.preview_zoom))`, the factor
by which `base_width` is multiplied to obtain `target_width`. -/
def renderClampZoom (zoom : ℚ) : ℚ :=
  max (1/2) (min 2 zoom)

/-- Observable outcome of one `PDFMergerApp._save_as` invocation. -/
inductive SaveStep where
  /-- `messagebox.showinfo("Nothing to Save", ...)` early return
  (`src/app.py` lines 321-323). -/
  | nothingToSave : SaveStep
  /-- The save dialog was dismissed (`asksaveasfilename` returned a falsy
  value), so nothing is written (`src/app.py` line 329). -/
  | cancelled : SaveStep
  /-- `shutil.copyfile` succeeded and the save was logged
  (`src/app.py` lines 331-332). -/
  | saved (dst : String) : SaveStep
  /-- `shutil.copyfile` raised; the error is logged and shown
  (`src/app.py` lines 333-335). -/
  | saveError : SaveStep
deriving Repr, DecidableEq

/-- `PDFMergerApp._save_as` (`src/app.py` lines 320-335).

* Lines 321-323: if `merged_pdf_path` is falsy, show an info dialog and
  return.
* Lines 324-329: ask for a destination; a falsy answer means the user
  cancelled and nothing happens.
* Lines 330-335: `shutil.copyfile(self.merged_pdf_path, dst)` copies the
  merged file's bytes to `dst`; it raises when the source is missing or the
  destination is not writable (`copyOk = false` models an environment-caused
  write failure), and the handler only logs and shows a dialog.

No branch assigns any attribute of the application object. -/
def save_as {Page : Type u} (fs : FS Page) (s : AppState Page)
    (dstChoice : Option String) (copyOk : Bool) :
    AppState Page × FS Page × SaveStep :=
  match s.merged_pdf_path with
  | none => (s, fs, SaveStep.nothingToSave)
  | some mp =>
    if mp = "" then (s, fs, SaveStep.nothingToSave)
    else
      match dstChoice with
      | none => (s, fs, SaveStep.cancelled)
      | some dst =>
        if dst = "" then (s, fs, SaveStep.cancelled)
        else
          match fs mp, copyOk with
          | some doc, true =>
              (s, fun p => if p = dst then some doc else fs p,
               SaveStep.saved dst)
          | _, _ => (s, fs, SaveStep.saveError)

/-! ### Witness fixtures: a tiny concrete file system and state -/

/-- A concrete file system over `Page := Nat` used by the witnesses:
two small documents at `"a"` and `"b"`, an empty document at `"z"`,
and nothing anywhere else. -/
def fsW : FS Nat := fun p =>
  if p = "a" then some [10, 11]
  else if p = "b" then some [20]
  else if p = "z" then some ([] : List Nat)
  else none

/-- A concrete application state with both sources selected. -/
def sW : AppState Nat :=
  { pdf1_path := some "a", pdf2_path := some "b",
    merged_pdf_path := none, preview_zoom := 1 }

/-! ### Helper lemmas shared by the claim theorems -/

/-- Unfolding of `appMerge` when both sources are selected (non-empty paths)
and both parse: the writer receives the pages of PDF 2 followed by the pages
of PDF 1, the result is written to the fresh path, and `merged_pdf_path` is
updated to it. -/
theorem appMerge_some {Page : Type u} (fs : FS Page) (m : Option String)
    (z : ℚ) (p1 p2 f : String) (d1 d2 : List Page)
    (h1 : p1 ≠ "") (h2 : p2 ≠ "")
    (hf1 : fs p1 = some d1) (hf2 : fs p2 = some d2) :
    appMerge fs ⟨some p1, some p2, m, z⟩ f =
      (⟨some p1, some p2, some f, z⟩,
       fun p => if p = f then some (d2 ++ d1) else fs p,
       MergeStep.success (d2 ++ d1)) := by
  simp [appMerge, truthy, mergePages, hf1, hf2, h1, h2]

/-- Unfolding of `appMerge` when both sources are selected but one of them
fails to parse: the exception handler is reached with state and file system
untouched. -/
theorem appMerge_fail {Page : Type u} (fs : FS Page) (m : Option String)
    (z : ℚ) (p1 p2 f : String)
    (h1 : p1 ≠ "") (h2 : p2 ≠ "")
    (hbad : fs p1 = none ∨ fs p2 = none) :
    appMerge fs ⟨some p1, some p2, m, z⟩ f =
      (⟨some p1, some p2, m, z⟩, fs, MergeStep.failed) := by
  rcases hbad with hb | hb
  · rcases hf2 : fs p2 with _ | d2 <;>
      simp [appMerge, truthy, mergePages, hb, hf2, h1, h2]
  · simp [appMerge, truthy, mergePages, hb, h1, h2]

/-! ### Claim theorems -/

/-- C1: for every ordered list of valid (parseable) input documents given to
the merge loop of `PDFMergerApp._merge`, the merged output's page count
equals the sum of the page counts of the inputs. -/
theorem mergePages_length_eq_sum {Page : Type u} (fs : FS Page)
    (srcs : List String) (docs : List (List Page))
    (h : List.Forall₂ (fun p d => fs p = some d) srcs docs) :
    mergePages fs srcs = some docs.flatten ∧
      docs.flatten.length = (docs.map List.length).sum := by
  constructor
  · induction h with
    | nil => simp [mergePages]
    | cons hpd _ ih => simp [mergePages, hpd, ih]
  · simp [List.length_flatten]

/-- Witness for C1 on the concrete file system `fsW`. -/
theorem mergePages_length_eq_sum_witness :
    mergePages fsW ["a", "b"] = some ([[10, 11], [20]] : List (List Nat)).flatten ∧
      ([[10, 11], [20]] : List (List Nat)).flatten.length =
        (([[10, 11], [20]] : List (List Nat)).map List.length).sum :=
  mergePages_length_eq_sum fsW ["a", "b"] [[10, 11], [20]]
    (List.Forall₂.cons (by decide) (List.Forall₂.cons (by decide) List.Forall₂.nil))

/-- C2: when both selected sources parse, the merge output's page sequence is
the pages of PDF 2 (the base document, first in the source list iterated at
`src/app.py` line 249) followed by the pages of PDF 1, and the page at each
cumulative output index is exactly the corresponding source page, with each
source's internal order preserved. -/
theorem appMerge_order_preserving {Page : Type u} (fs : FS Page)
    (m : Option String) (z : ℚ) (p1 p2 f : String) (d1 d2 : List Page)
    (h1 : p1 ≠ "") (h2 : p2 ≠ "")
    (hf1 : fs p1 = some d1) (hf2 : fs p2 = some d2) :
    (appMerge fs ⟨some p1, some p2, m, z⟩ f).2.2 = MergeStep.success (d2 ++ d1) ∧
      ∀ k : ℕ, (d2 ++ d1)[k]? =
        if k < d2.length then d2[k]? else d1[k - d2.length]? := by
  exact ⟨by rw [appMerge_some fs m z p1 p2 f d1 d2 h1 h2 hf1 hf2],
    fun k => List.getElem?_append⟩

/-- Witness for C2 on the concrete file system `fsW`. -/
theorem appMerge_order_preserving_witness :
    (appMerge fsW ⟨some "a", some "b", none, 1⟩ "t").2.2 =
        MergeStep.success ([20] ++ [10, 11]) ∧
      ∀ k : ℕ, (([20] : List Nat) ++ [10, 11])[k]? =
        if k < ([20] : List Nat).length then ([20] : List Nat)[k]?
        else ([10, 11] : List Nat)[k - ([20] : List Nat).length]? :=
  appMerge_order_preserving fsW none 1 "a" "b" "t" [10, 11] [20]
    (by decide) (by decide) (by decide) (by decide)

/-- C3: when both sources are selected but one of them fails to parse, the
merge aborts in the exception handler: the outcome is an error, the file
system is untouched (no partial output file is written, since `PdfReader`
raises before the temporary directory is even created), and
`merged_pdf_path` keeps its previous value `m`. -/
theorem appMerge_parse_failure_aborts {Page : Type u} (fs : FS Page)
    (m : Option String) (z : ℚ) (p1 p2 f : String)
    (h1 : p1 ≠ "") (h2 : p2 ≠ "")
    (hbad : fs p1 = none ∨ fs p2 = none) :
    (appMerge fs ⟨some p1, some p2, m, z⟩ f).2.2 = MergeStep.failed ∧
      (appMerge fs ⟨some p1, some p2, m, z⟩ f).2.1 = fs ∧
      (appMerge fs ⟨some p1, some p2, m, z⟩ f).1.merged_pdf_path = m := by
  rw [appMerge_fail fs m z p1 p2 f h1 h2 hbad]
  exact ⟨rfl, rfl, rfl⟩

/-- Witness for C3: source `"c"` does not exist in `fsW`. -/
theorem appMerge_parse_failure_aborts_witness :
    (appMerge fsW ⟨some "c", some "b", none, 1⟩ "t").2.2 = MergeStep.failed ∧
      (appMerge fsW ⟨some "c", some "b", none, 1⟩ "t").2.1 = fsW ∧
      (appMerge fsW ⟨some "c", some "b", none, 1⟩ "t").1.merged_pdf_path = none :=
  appMerge_parse_failure_aborts fsW none 1 "c" "b" "t"
    (by decide) (by decide) (Or.inl (by decide))

/-- C4: when either source path is falsy (`None` or empty, as tested by
`if not self.pdf1_path or not self.pdf2_path`), the merge shows the
"Missing Files" warning and returns with the whole state and the file
system unchanged: no output file is produced. -/
theorem appMerge_missing_sources_rejected {Page : Type u} (fs : FS Page)
    (s : AppState Page) (f : String)
    (h : truthy s.pdf1_path = false ∨ truthy s.pdf2_path = false) :
    appMerge fs s f = (s, fs, MergeStep.warnedMissing) := by
  have hb : (truthy s.pdf1_path && truthy s.pdf2_path) = false := by
    rcases h with h | h <;> simp [h]
  simp [appMerge, hb]

/-- Witness for C4: PDF 1 is unset. -/
theorem appMerge_missing_sources_rejected_witness :
    appMerge fsW ⟨none, some "b", none, 1⟩ "t" =
      (⟨none, some "b", none, 1⟩, fsW, MergeStep.warnedMissing) :=
  appMerge_missing_sources_rejected fsW ⟨none, some "b", none, 1⟩ "t"
    (Or.inl (by decide))

/-- C5: the merge result is a deterministic function of the ordered inputs.
If a merge succeeds with page sequence `pgs`, running the merge again from
the resulting state (same ordered inputs, a new fresh temporary path)
succeeds with the identical page sequence — and hence identical page count.
The freshness hypothesis `fs f1 = none` models `tempfile.mkdtemp` producing
a brand-new directory, so the first output cannot shadow a source. -/
theorem appMerge_rerun_same_pages {Page : Type u} (fs : FS Page)
    (s : AppState Page) (f1 f2 : String) (pgs : List Page)
    (hfresh : fs f1 = none)
    (h : (appMerge fs s f1).2.2 = MergeStep.success pgs) :
    (appMerge (appMerge fs s f1).2.1 (appMerge fs s f1).1 f2).2.2 =
      MergeStep.success pgs := by
  obtain ⟨o1, o2, m, z⟩ := s
  rcases o1 with _ | p1
  · simp [appMerge, truthy] at h
  rcases o2 with _ | p2
  · simp [appMerge, truthy] at h
  by_cases he1 : p1 = ""
  · simp [appMerge, truthy, he1] at h
  by_cases he2 : p2 = ""
  · simp [appMerge, truthy, he2] at h
  rcases hf2 : fs p2 with _ | d2
  · rw [appMerge_fail fs m z p1 p2 f1 he1 he2 (Or.inr hf2)] at h
    exact absurd h (by simp)
  rcases hf1 : fs p1 with _ | d1
  · rw [appMerge_fail fs m z p1 p2 f1 he1 he2 (Or.inl hf1)] at h
    exact absurd h (by simp)
  have hrun := appMerge_some fs m z p1 p2 f1 d1 d2 he1 he2 hf1 hf2
  rw [hrun] at h ⊢
  have hp1 : p1 ≠ f1 := by
    intro hEq; rw [hEq, hfresh] at hf1; exact Option.noConfusion hf1
  have hp2 : p2 ≠ f1 := by
    intro hEq; rw [hEq, hfresh] at hf2; exact Option.noConfusion hf2
  have hf1' : (fun p => if p = f1 then some (d2 ++ d1) else fs p) p1 = some d1 := by
    simp [hp1, hf1]
  have hf2' : (fun p => if p = f1 then some (d2 ++ d1) else fs p) p2 = some d2 := by
    simp [hp2, hf2]
  show (appMerge _ ⟨some p1, some p2, some f1, z⟩ f2).2.2 = MergeStep.success pgs
  rw [appMerge_some _ (some f1) z p1 p2 f2 d1 d2 he1 he2 hf1' hf2']
  exact h

/-- Witness for C5 on the concrete file system `fsW`. -/
theorem appMerge_rerun_same_pages_witness :
    (appMerge (appMerge fsW sW "t1").2.1 (appMerge fsW sW "t1").1 "t2").2.2 =
      MergeStep.success ([20, 10, 11] : List Nat) :=
  appMerge_rerun_same_pages fsW sW "t1" "t2" [20, 10, 11] (by decide) (by decide)

/-- C6: swapping which file is PDF 1 and which is PDF 2 before merging
changes only the order of the output pages: both merges succeed, the two
outputs are permutations of one another (so every individual page's content
is preserved), and their page counts are equal. -/
theorem appMerge_swap_perm {Page : Type u} (fs : FS Page)
    (m m' : Option String) (z z' : ℚ) (p1 p2 f f' : String) (d1 d2 : List Page)
    (h1 : p1 ≠ "") (h2 : p2 ≠ "")
    (hf1 : fs p1 = some d1) (hf2 : fs p2 = some d2) :
    (appMerge fs ⟨some p1, some p2, m, z⟩ f).2.2 = MergeStep.success (d2 ++ d1) ∧
      (appMerge fs ⟨some p2, some p1, m', z'⟩ f').2.2 = MergeStep.success (d1 ++ d2) ∧
      (d1 ++ d2).Perm (d2 ++ d1) ∧ (d1 ++ d2).length = (d2 ++ d1).length := by
  refine ⟨?_, ?_, List.perm_append_comm, by simp [Nat.add_comm]⟩
  · rw [appMerge_some fs m z p1 p2 f d1 d2 h1 h2 hf1 hf2]
  · rw [appMerge_some fs m' z' p2 p1 f' d2 d1 h2 h1 hf2 hf1]

/-- Witness for C6 on the concrete file system `fsW`. -/
theorem appMerge_swap_perm_witness :
    (appMerge fsW ⟨some "a", some "b", none, 1⟩ "t").2.2 =
        MergeStep.success ([20] ++ [10, 11]) ∧
      (appMerge fsW ⟨some "b", some "a", none, 1⟩ "t").2.2 =
        MergeStep.success ([10, 11] ++ [20]) ∧
      (([10, 11] : List Nat) ++ [20]).Perm ([20] ++ [10, 11]) ∧
      (([10, 11] : List Nat) ++ [20]).length = (([20] : List Nat) ++ [10, 11]).length :=
  appMerge_swap_perm fsW none none 1 1 "a" "b" "t" "t" [10, 11] [20]
    (by decide) (by decide) (by decide) (by decide)

/-- C7: a valid source with zero pages contributes no pages to the merged
output: removing its entry from the source list leaves the merge loop's
output page sequence unchanged. -/
theorem mergePages_zero_page_source {Page : Type u} (fs : FS Page)
    (srcs : List String) (q : String) (pages : List Page)
    (hq : q ∈ srcs) (hz : fs q = some [])
    (h : mergePages fs srcs = some pages) :
    mergePages fs (srcs.erase q) = some pages := by
  revert hq h
  induction srcs generalizing pages with
  | nil => intro hq _; cases hq
  | cons a rest ih =>
    intro hq h
    by_cases ha : a = q
    · subst ha
      rw [List.erase_cons_head]
      rcases hr : mergePages fs rest with _ | r
      · simp [mergePages, hz, hr] at h
      · simp [mergePages, hz, hr] at h
        rw [h]
    · have hqr : q ∈ rest := by
        rcases List.mem_cons.mp hq with h' | h'
        · exact absurd h'.symm ha
        · exact h'
      rcases hfa : fs a with _ | da
      · simp [mergePages, hfa] at h
      · rcases hr : mergePages fs rest with _ | r
        · simp [mergePages, hfa, hr] at h
        · simp [mergePages, hfa, hr] at h
          rw [List.erase_cons_tail (by simpa using fun hh => ha hh)]
          simp [mergePages, hfa, ih r hqr hr, h]

/-- Witness for C7: source `"z"` holds a zero-page document in `fsW`. -/
theorem mergePages_zero_page_source_witness :
    mergePages fsW (["a", "z", "b"].erase "z") = some ([10, 11, 20] : List Nat) :=
  mergePages_zero_page_source fsW ["a", "z", "b"] "z" [10, 11, 20]
    (by decide) (by decide) (by decide)

/-- C9: the zoom value computed by `_change_zoom` stays in the closed
interval `[0.5, 2.0]` for every starting zoom in that interval and every
delta, and the effective zoom used by `_render_preview` is clamped to the
same interval for every stored zoom value. -/
theorem preview_zoom_clamped (zoom delta z : ℚ)
    (hlo : 1/2 ≤ zoom) (hhi : zoom ≤ 2) :
    (1/2 ≤ change_zoom zoom delta ∧ change_zoom zoom delta ≤ 2) ∧
      (1/2 ≤ renderClampZoom z ∧ renderClampZoom z ≤ 2) := by
  unfold change_zoom renderClampZoom
  exact ⟨⟨le_max_left _ _, max_le (by norm_num) (min_le_left _ _)⟩,
         le_max_left _ _, max_le (by norm_num) (min_le_left _ _)⟩

/-- Witness for C9: zoom `1`, delta `+0.1`, and a stored zoom of `5` that
the renderer clamps. -/
theorem preview_zoom_clamped_witness :
    ((1 : ℚ)/2 ≤ change_zoom 1 (1/10) ∧ change_zoom 1 (1/10) ≤ 2) ∧
      ((1 : ℚ)/2 ≤ renderClampZoom 5 ∧ renderClampZoom 5 ≤ 2) :=
  preview_zoom_clamped 1 (1/10) 5 (by norm_num) (by norm_num)

/-- C10: when a merged document exists, `_save_as` leaves the whole
application state (in particular `pdf1_path`, `pdf2_path` and
`merged_pdf_path`) unchanged whether the user cancels or the copy succeeds
or fails, and when a destination is chosen and the copy succeeds, the
destination afterwards holds the merged document's content. -/
theorem save_as_preserves_selection {Page : Type u} (fs : FS Page)
    (s : AppState Page) (mp : String) (dstChoice : Option String) (copyOk : Bool)
    (hm : s.merged_pdf_path = some mp) (hne : mp ≠ "") :
    (save_as fs s dstChoice copyOk).1 = s ∧
      (∀ dst doc, dstChoice = some dst → dst ≠ "" → fs mp = some doc →
        copyOk = true → (save_as fs s dstChoice copyOk).2.1 dst = some doc ∧
          (save_as fs s dstChoice copyOk).2.2 = SaveStep.saved dst) := by
  constructor
  · unfold save_as
    repeat' split
    all_goals rfl
  · intro dst doc hdst hdne hdoc hOk
    subst hdst
    subst hOk
    refine ⟨?_, ?_⟩ <;> simp [save_as, hm, hne, hdne, hdoc]

/-- Witness for C10 on the concrete file system `fsW`: the merged document
sits at `"a"` and is copied to `"out"`. -/
theorem save_as_preserves_selection_witness :
    (save_as fsW ⟨some "a", some "b", some "a", 1⟩ (some "out") true).1 =
        ⟨some "a", some "b", some "a", 1⟩ ∧
      (∀ dst doc, (some "out" : Option String) = some dst → dst ≠ "" →
        fsW "a" = some doc → true = true →
        (save_as fsW ⟨some "a", some "b", some "a", 1⟩ (some "out") true).2.1 dst =
            some doc ∧
          (save_as fsW ⟨some "a", some "b", some "a", 1⟩ (some "out") true).2.2 =
            SaveStep.saved dst) :=
  save_as_preserves_selection fsW ⟨some "a", some "b", some "a", 1⟩ "a"
    (some "out") true (by decide) (by decide)
